import Mathlib

/-!
Verification of the TensorDock deployment orchestrator
(`tensordock_auto_deploy.py`): a shallow embedding of the readiness
poller (`wait_for_instance`), the SSH availability probe
(`_wait_for_ssh_available`), the resilient remote executor
(`run_remote_deployment`), the instance-creation response handling
(`deploy_with_raw_api`) and the instance listing display
(`list_and_manage_instances`), together with theorems settling the
spec's claims about them.

Network requests, subprocess invocations and wall-clock sleeps are
modelled by explicit oracles (one response per polling tick, one
outcome per execution attempt) and by event traces recording the side
effects in program order.
-/

namespace TD

/-! ### String scanning (Python `pat in line.lower()`) -/

/-- Does `s` start with the pattern `p`?  (`matchesHere p s`). -/
def matchesHere : List Char → List Char → Bool
  | [], _ => true
  | _ :: _, [] => false
  | p :: ps, c :: cs => p == c && matchesHere ps cs

/-- Does the pattern occur as a contiguous substring of `s`?
Embeds Python's `pat in s` on strings. -/
def hasSub (pat : List Char) : List Char → Bool
  | [] => matchesHere pat []
  | c :: cs => matchesHere pat (c :: cs) || hasSub pat cs

/-- `strHas s pat` embeds Python `pat in s`. -/
def strHas (s pat : String) : Bool :=
  hasSub pat.toList s.toList

/-- Python `str.lower()`, character by character. -/
def lowerStr (s : String) : String :=
  String.mk (s.toList.map Char.toLower)

/-- One output line matches a reboot indicator: Python
`"rebooting" in line.lower() or "system is going down" in line.lower()`
(`tensordock_auto_deploy.py` line 590). -/
def rebootLine (l : String) : Bool :=
  strHas (lowerStr l) "rebooting" || strHas (lowerStr l) "system is going down"

/-! ### `_wait_for_ssh_available` (lines 400-457): backoff and probe loop -/

/-- Backoff delay before the next attempt, as computed at line 452:
`wait_time = min(5 * (attempt if attempt <= 4 else 4), 20)`. -/
def wait_time (attempt : Nat) : Nat :=
  min (5 * (if attempt ≤ 4 then attempt else 4)) 20

/-- The probe loop of `_wait_for_ssh_available` (lines 419-457).
`succeeds n` tells whether the `n`-th SSH attempt (1-based, as in the
source's `attempt` counter) succeeds; `timeout` is the deadline in
seconds; `t` is the elapsed time and `attempt` the attempts made so
far.  Attempt durations are idealized to zero, so elapsed time is the
sum of the sleeps.  Returns whether the loop returned `True`, and the
list of elapsed times at which attempts were issued.  `fuel` bounds the
recursion; each iteration advances `t` by at least 5 seconds, so any
`fuel > timeout / 5 + 1` is enough. -/
def probeRunFrom (succeeds : Nat → Bool) (timeout : Nat) :
    Nat → Nat → Nat → Bool × List Nat
  | 0, _, _ => (false, [])
  | fuel + 1, t, attempt =>
    if t < timeout then
      if succeeds (attempt + 1) then (true, [t])
      else
        let next := probeRunFrom succeeds timeout fuel
          (t + wait_time (attempt + 1)) (attempt + 1)
        (next.1, t :: next.2)
    else (false, [])

/-- `_wait_for_ssh_available` started at time 0 with no attempts made. -/
def wait_for_ssh_available (succeeds : Nat → Bool) (timeout fuel : Nat) :
    Bool × List Nat :=
  probeRunFrom succeeds timeout fuel 0 0

/-! ### `wait_for_instance` (lines 459-522): readiness polling -/

/-- One entry of the `portForwards` list of an instance-status
response.  Fields are optional because the source reads them with
`dict.get`, which yields `None` when absent. -/
structure PortForward where
  internal_port : Option Nat
  external_port : Option Nat
deriving DecidableEq

/-- One `GET instances/{id}` response, as read by `wait_for_instance`:
HTTP status code and the fields the code extracts with `.get`. -/
structure InstanceResponse where
  status_code : Nat
  status : Option String
  ipAddress : Option String
  portForwards : Option (List PortForward)
deriving DecidableEq

/-- The `for port_forward in data.get("portForwards"): ... break / else`
block (lines 504-509): the external port of the first mapping whose
`internal_port` is 22, else `None`. -/
def findSshPort (pfs : List PortForward) : Option Nat :=
  match pfs.find? (fun pf => pf.internal_port == some 22) with
  | some pf => pf.external_port
  | none => none

/-- What one iteration of the polling loop (lines 493-520) does with a
response. -/
inductive PollStep where
  /-- Iterating `data.get("portForwards")` when the field is absent
  raises `TypeError` (line 504). -/
  | crash
  /-- Falls through to `time.sleep(10)` and polls again. -/
  | keepPolling
  /-- Reaches `if ssh_host:` with a truthy host and proceeds to
  `_wait_for_ssh_available(ssh_host, ssh_port, timeout=120)`. -/
  | probe (host : String) (port : Option Nat)
deriving DecidableEq

/-- One iteration of the `wait_for_instance` polling loop applied to a
response (lines 494-518). -/
def poll_step (r : InstanceResponse) : PollStep :=
  if r.status_code = 200 then
    if r.status = some "running" then
      match r.portForwards with
      | none => .crash
      | some pfs =>
        match r.ipAddress with
        | some h =>
          if h ≠ "" then .probe h (findSshPort pfs) else .keepPolling
        | none => .keepPolling
    else .keepPolling
  else .keepPolling

/-- Result of `wait_for_instance`. -/
inductive WaitResult where
  /-- Unhandled `TypeError` from iterating an absent `portForwards`. -/
  | crash
  /-- The loop exhausted `max_wait` and returned `(None, None)`. -/
  | timedOut
  /-- `_wait_for_ssh_available` failed; returned `(None, None)`
  (line 518). -/
  | sshUnavailable
  /-- Returned `(ssh_host, ssh_port)` (line 515); the port can be
  `None`. -/
  | connected (host : String) (port : Option Nat)
deriving DecidableEq

/-- `wait_for_instance` (lines 459-522) over a trace of responses, one
per polling tick; the length of the trace models the `max_wait`
deadline.  `probeOk h p` is the outcome of
`_wait_for_ssh_available(h, p, timeout=120)`. -/
def wait_for_instance (probeOk : String → Option Nat → Bool) :
    List InstanceResponse → WaitResult
  | [] => .timedOut
  | r :: rest =>
    match poll_step r with
    | .crash => .crash
    | .keepPolling => wait_for_instance probeOk rest
    | .probe h p => if probeOk h p then .connected h p else .sshUnavailable

/-! ### `run_remote_deployment` (lines 524-640): resilient executor -/

/-- The output-streaming loop of one execution attempt (lines 585-592):
fold over the streamed lines with the running `reboot_detected` flag,
counting the lines printed.  A matching line sets the flag and the
loop continues to the next line. -/
def streamScan : List String → Bool → Bool × Nat
  | [], fl => (fl, 0)
  | l :: ls, fl =>
    let fl2 := if rebootLine l then true else fl
    let next := streamScan ls fl2
    (next.1, next.2 + 1)

/-- The observable outcome of one execution attempt: the streamed
output lines, the exit code (`process.returncode`, with `-1` standing
for Python's `None` as at line 603), and whether `process.wait`
raised `TimeoutExpired` (line 596), which also sets
`reboot_detected`. -/
structure AttemptOutcome where
  lines : List String
  exitCode : Int
  timedOut : Bool
deriving DecidableEq

/-- Classification of one attempt, mirroring lines 606-638:
exit code 0 → success; exit code 255, or a reboot indicator seen in
the stream, or the post-stream wait timing out → disconnect;
any other exit code → script failure. -/
inductive AttemptClass where
  | succeeded
  | disconnected
  | scriptFailed
deriving DecidableEq

/-- Classify one attempt outcome (the branch structure at
lines 606-638). -/
def classify (a : AttemptOutcome) : AttemptClass :=
  if a.exitCode = 0 then .succeeded
  else if a.exitCode == 255 || (streamScan a.lines false).1 || a.timedOut then
    .disconnected
  else .scriptFailed

/-- Overall result of `run_remote_deployment`. -/
inductive RunResult where
  /-- `scp` failed; returned at line 553. -/
  | uploadFailed
  /-- Exit code 0; returned at line 610. -/
  | succeeded
  /-- Disconnect with `attempt = max_retries`; returned at line 633. -/
  | retriesExhausted
  /-- Disconnect, but the 300 s re-probe failed; returned at line 629. -/
  | probeTimedOut
  /-- Other non-zero exit code; returned at line 638. -/
  | scriptFailed (code : Int)
deriving DecidableEq

/-- Side effects of `run_remote_deployment`, in program order. -/
inductive Ev where
  /-- The `scp` transfer of the setup payload (lines 540-550). -/
  | upload
  /-- One `ssh ... sudo bash /home/user/setup.sh` execution
  (lines 566-579). -/
  | execute
  /-- The `time.sleep(10)` settle delay plus the
  `_wait_for_ssh_available(host, port, timeout=300)` re-probe
  (lines 619-622). -/
  | settleAndProbe
deriving DecidableEq

/-- The retry loop `for attempt in range(max_retries + 1)`
(lines 558-638), started at attempt number `attempt` with `remaining`
further attempts allowed (`remaining = max_retries - attempt`).
`out n` is the outcome of the `n`-th execution attempt (0-based) and
`probeOk n` the outcome of the re-probe following attempt `n`.
Returns the overall result and the emitted events. -/
def deployFrom (out : Nat → AttemptOutcome) (probeOk : Nat → Bool) :
    Nat → Nat → RunResult × List Ev
  | remaining, attempt =>
    match classify (out attempt) with
    | .succeeded => (.succeeded, [.execute])
    | .scriptFailed => (.scriptFailed (out attempt).exitCode, [.execute])
    | .disconnected =>
      match remaining with
      | 0 => (.retriesExhausted, [.execute])
      | r + 1 =>
        if probeOk attempt then
          let next := deployFrom out probeOk r (attempt + 1)
          (next.1, .execute :: .settleAndProbe :: next.2)
        else (.probeTimedOut, [.execute, .settleAndProbe])

/-- `run_remote_deployment` (lines 524-640): upload the payload once,
then run the retry loop.  `uploadOk` is the outcome of the `scp`
transfer. -/
def run_remote_deployment (uploadOk : Bool) (out : Nat → AttemptOutcome)
    (probeOk : Nat → Bool) (max_retries : Nat) : RunResult × List Ev :=
  if uploadOk then
    let next := deployFrom out probeOk max_retries 0
    (next.1, .upload :: next.2)
  else (.uploadFailed, [.upload])

/-! ### `deploy_with_raw_api` (lines 196-398): creation and flow order -/

/-- The `data` object of a `POST instances` response body, with the
fields the code reads: `data.get("error")` and `data.get("id")`. -/
structure CreateData where
  errorField : Option String
  id : Option String
deriving DecidableEq

/-- A `POST instances` response: HTTP status code, the body's `data`
object (absent ⇒ `response.json().get("data")` is `None`), and the
body's top-level `error` field. -/
structure CreateResponse where
  status_code : Nat
  dataField : Option CreateData
  errField : Option String
deriving DecidableEq

/-- How `deploy_with_raw_api` treats the creation response
(lines 348-363). -/
inductive CreateOutcome where
  /-- `response.json().get("data")` is `None`, so `.get("error")` on it
  raises `AttributeError` (line 348). -/
  | crash
  /-- The check at line 348 fired; prints the failure and returns
  `None` (lines 349-351). -/
  | rejected
  /-- Treated as success; the instance id is read at line 362. -/
  | accepted (id : Option String)
deriving DecidableEq

/-- The creation-response check (line 348):
`response.json().get("data").get("error") is not None or`
`response.json().get("error") is not None or response.status_code >= 400`. -/
def handle_create_response (r : CreateResponse) : CreateOutcome :=
  match r.dataField with
  | none => .crash
  | some d =>
    if d.errorField.isSome || r.errField.isSome || 400 ≤ r.status_code then
      .rejected
    else .accepted d.id

/-- Side effects of a `deploy_with_raw_api` call, in program order. -/
inductive DeployEv where
  /-- `GET locations` (line 228). -/
  | getLocations
  /-- Write of `/tmp/tensordock_setup.sh` (lines 342-343). -/
  | saveScript
  /-- The single `POST instances` (line 346). -/
  | postCreate
  /-- Write of `server_info.json` (lines 372-373). -/
  | saveSnapshot
  /-- The `wait_for_instance` readiness poll (line 378). -/
  | waitForInstance
  /-- The optional `run_remote_deployment` call (line 391). -/
  | runRemoteDeployment
deriving DecidableEq

/-- The event trace of one `deploy_with_raw_api` call.  `locFound`:
the locations request succeeded and the operator selected a location
with the requested GPU (lines 228-293); `r`: the creation response;
`waitOk`: `wait_for_instance` returned a truthy host (line 380);
`runScript`: the operator answered `y` to running the deployment
script (line 389). -/
def deploy_with_raw_api (locFound : Bool) (r : CreateResponse)
    (waitOk runScript : Bool) : List DeployEv :=
  if locFound then
    [.getLocations, .saveScript, .postCreate] ++
      (match handle_create_response r with
       | .crash => []
       | .rejected => []
       | .accepted _ =>
         [.saveSnapshot, .waitForInstance] ++
           (if waitOk then
             (if runScript then [.runRemoteDeployment] else [])
            else []))
  else [.getLocations]

/-! ### `list_and_manage_instances` (lines 757-863): display step -/

/-- The SSH-port display expression at line 801:
`instance_data.get("portForwards")[0].get("external_port", "N/A")`.
`Except.error` carries the Python exception raised; `Except.ok none`
renders as `"N/A"`. -/
def display_ssh_port (pfs : Option (List PortForward)) :
    Except String (Option Nat) :=
  match pfs with
  | none => .error "TypeError: NoneType is not subscriptable"
  | some [] => .error "IndexError: list index out of range"
  | some (pf :: _) => .ok pf.external_port

/-! ### Concrete fixtures -/

/-- A status response: running, with an address, but no port-forward
mapping whose internal port is 22. -/
def runningNoSsh : InstanceResponse :=
  ⟨200, some "running", some "1.2.3.4", some [⟨some 8188, some 30188⟩]⟩

/-- A status response: running, with an address and a port-22
mapping. -/
def runningWithSsh : InstanceResponse :=
  ⟨200, some "running", some "1.2.3.4", some [⟨some 22, some 22022⟩]⟩

/-- A status response with `status == "error"`. -/
def errResp : InstanceResponse :=
  ⟨200, some "error", some "1.2.3.4", some []⟩

/-- A status response with `status == "terminated"`. -/
def termResp : InstanceResponse :=
  ⟨200, some "terminated", some "1.2.3.4", some []⟩

/-- An attempt that disconnects: exit code 255, no output. -/
def discOutcome : AttemptOutcome := ⟨[], 255, false⟩

/-- An attempt that succeeds cleanly: exit code 0. -/
def succOutcome : AttemptOutcome := ⟨[], 0, false⟩

/-- An attempt that fails with an ordinary non-zero exit code. -/
def failOutcome : AttemptOutcome := ⟨[], 7, false⟩

/-- Attempt 0 disconnects, every later attempt succeeds. -/
def discThenSucc : Nat → AttemptOutcome :=
  fun n => if n = 0 then discOutcome else succOutcome

/-- A creation response accepted by the check at line 348: HTTP 200,
a `data` object with an id and no error fields. -/
def okCreateResp : CreateResponse := ⟨200, some ⟨none, some "inst-1"⟩, none⟩

/-! ## Helper lemmas -/

/-- The streaming loop returns the disjunction of the incoming flag
with "some line matches", and consumes every line. -/
lemma streamScan_eq (ls : List String) (fl : Bool) :
    streamScan ls fl = (fl || ls.any rebootLine, ls.length) := by
  induction ls generalizing fl with
  | nil => simp [streamScan]
  | cons l ls ih =>
    cases h : rebootLine l <;>
      simp [streamScan, h, ih, Bool.or_assoc]

/-- The retry loop never emits an upload event. -/
lemma deployFrom_count_upload (out : Nat → AttemptOutcome)
    (probeOk : Nat → Bool) :
    ∀ remaining attempt,
      ((deployFrom out probeOk remaining attempt).2.count Ev.upload) = 0 := by
  intro remaining
  induction remaining with
  | zero =>
    intro attempt
    cases h : classify (out attempt) <;> simp [deployFrom, h, List.count_cons]
  | succ r ih =>
    intro attempt
    cases h : classify (out attempt) <;>
      cases hp : probeOk attempt <;>
        simp [deployFrom, h, hp, List.count_cons, ih]

/-- The retry loop at `remaining` attempts left issues at most
`remaining + 1` executions. -/
lemma deployFrom_count_execute_le (out : Nat → AttemptOutcome)
    (probeOk : Nat → Bool) :
    ∀ remaining attempt,
      ((deployFrom out probeOk remaining attempt).2.count Ev.execute) ≤
        remaining + 1 := by
  intro remaining
  induction remaining with
  | zero =>
    intro attempt
    cases h : classify (out attempt) <;> simp [deployFrom, h, List.count_cons]
  | succ r ih =>
    intro attempt
    cases h : classify (out attempt) with
    | succeeded => simp [deployFrom, h, List.count_cons]
    | scriptFailed => simp [deployFrom, h, List.count_cons]
    | disconnected =>
      cases hp : probeOk attempt with
      | false => simp [deployFrom, h, hp, List.count_cons]
      | true =>
        have hnext := ih (attempt + 1)
        simp [deployFrom, h, hp, List.count_cons]
        omega

/-- Once some attempt `j` classifies as a script failure, the loop
started at `attempt ≤ j` executes at most `j - attempt + 1` times:
attempts stop at the script failure, which is never retried. -/
lemma deployFrom_scriptFailed_le (out : Nat → AttemptOutcome)
    (probeOk : Nat → Bool) (j : Nat)
    (hj : classify (out j) = .scriptFailed) :
    ∀ remaining attempt, attempt ≤ j →
      ((deployFrom out probeOk remaining attempt).2.count Ev.execute) ≤
        j - attempt + 1 := by
  intro remaining
  induction remaining with
  | zero =>
    intro attempt _
    cases h : classify (out attempt) <;> simp [deployFrom, h, List.count_cons]
  | succ r ih =>
    intro attempt hle
    cases h : classify (out attempt) with
    | succeeded => simp [deployFrom, h, List.count_cons]
    | scriptFailed => simp [deployFrom, h, List.count_cons]
    | disconnected =>
      cases hp : probeOk attempt with
      | false => simp [deployFrom, h, hp, List.count_cons]
      | true =>
        have hne : attempt ≠ j := by
          intro he; rw [he, hj] at h; exact absurd h (by simp)
        have h1 : attempt + 1 ≤ j := by omega
        have hnext := ih (attempt + 1) h1
        simp [deployFrom, h, hp, List.count_cons]
        omega

/-- All-failing probes make the probe loop return `False` whatever the
starting state. -/
lemma probeRunFrom_allFail (timeout : Nat) :
    ∀ fuel t attempt,
      (probeRunFrom (fun _ => false) timeout fuel t attempt).1 = false := by
  intro fuel
  induction fuel with
  | zero => intro t attempt; simp [probeRunFrom]
  | succ n ih =>
    intro t attempt
    by_cases h : t < timeout <;> simp [probeRunFrom, h, ih]

/-! ## Claim theorems -/

/-- C1: the spec requires that a running status with no port-22
mapping keeps the readiness poll going, never yielding an endpoint
with an absent port.  The code instead stops polling at the first such
response: it enters the SSH probe with `ssh_port = None` and, if the
probe reports success, returns the partial endpoint
`("1.2.3.4", None)`; if the probe fails it gives up with
`(None, None)` even though the very next poll would have produced a
complete endpoint. -/
theorem c1_running_without_mapping_stops_polling :
    wait_for_instance (fun _ _ => true) [runningNoSsh] =
      .connected "1.2.3.4" none ∧
    wait_for_instance (fun _ _ => false) [runningNoSsh, runningWithSsh] =
      .sshUnavailable := by
  constructor <;> decide

/-- C4 counterexample: the claim says a status of `error` makes
`wait_for_instance` fail immediately; on the trace
`[errResp, runningWithSsh]` the code instead keeps polling past the
error response and connects on the next tick. -/
theorem c4_counterexample :
    wait_for_instance (fun _ _ => true) [errResp, runningWithSsh] =
      .connected "1.2.3.4" (some 22022) := by
  decide

/-- C4 (amended): statuses `error` and `terminated` are not detected;
they are treated like any other non-running status, so polling
continues and the loop only gives up by exhausting its deadline,
returning `(None, None)`. -/
theorem c4_error_status_keeps_polling
    (probeOk : String → Option Nat → Bool) (trace : List InstanceResponse)
    (h : ∀ r ∈ trace, r.status = some "error" ∨ r.status = some "terminated") :
    wait_for_instance probeOk trace = .timedOut := by
  induction trace with
  | nil => rfl
  | cons r rest ih =>
    have hr := h r (by simp)
    have hstep : poll_step r = .keepPolling := by
      rcases hr with h1 | h1 <;> simp [poll_step, h1]
    rw [wait_for_instance, hstep]
    exact ih (fun x hx => h x (by simp [hx]))

/-- C4 witness: applying the amended theorem to a concrete
error-then-terminated trace. -/
theorem c4_error_status_keeps_polling_witness :
    (∀ r ∈ [errResp, termResp],
      r.status = some "error" ∨ r.status = some "terminated") ∧
    wait_for_instance (fun _ _ => true) [errResp, termResp] = .timedOut :=
  ⟨by decide, c4_error_status_keeps_polling _ [errResp, termResp] (by decide)⟩

/-- C5: a reboot-indicator line in the stream sets the
`reboot_detected` flag without stopping the stream (every line is
still consumed), and any session whose output contains such a line
and then ends with a non-zero exit code — in particular the
disconnect code 255 — classifies as a disconnect, never as a script
failure. -/
theorem c5_reboot_line_classifies_disconnected :
    (∀ (ls : List String) (fl : Bool),
      streamScan ls fl = (fl || ls.any rebootLine, ls.length)) ∧
    (∀ a : AttemptOutcome, a.lines.any rebootLine = true →
      a.exitCode ≠ 0 → classify a = .disconnected) ∧
    (∀ a : AttemptOutcome, a.lines.any rebootLine = true →
      classify a ≠ .scriptFailed) ∧
    classify ⟨["System is going down for reboot"], 255, false⟩ =
      .disconnected := by
  have hdisc : ∀ a : AttemptOutcome, a.lines.any rebootLine = true →
      a.exitCode ≠ 0 → classify a = .disconnected := by
    intro a h hne
    rw [classify, if_neg hne, if_pos]
    simp [streamScan_eq, h]
  refine ⟨fun ls fl => streamScan_eq ls fl, hdisc, ?_, by decide⟩
  intro a h
  by_cases h0 : a.exitCode = 0
  · rw [classify, if_pos h0]; simp
  · rw [hdisc a h h0]; simp

/-- C5 witness: a concrete session with a reboot line and exit code
255, classified through the theorem. -/
theorem c5_reboot_line_classifies_disconnected_witness :
    ((["Rebooting now"].any rebootLine = true) ∧ (255 : Int) ≠ 0) ∧
    classify ⟨["Rebooting now"], 255, false⟩ = .disconnected :=
  ⟨⟨by decide, by decide⟩,
    c5_reboot_line_classifies_disconnected.2.1
      ⟨["Rebooting now"], 255, false⟩ (by decide) (by decide)⟩

/-- C2 counterexample: with `max_retries = 1`, attempt 0
disconnecting, the re-probe succeeding and attempt 1 succeeding, the
whole run emits exactly one upload event — the re-attempt that follows
the settle-and-re-probe goes straight to a new execution with no
second transfer of the payload, contradicting the claimed
`Disconnected → Uploading` transition. -/
theorem c2_counterexample :
    run_remote_deployment true discThenSucc (fun _ => true) 1 =
      (.succeeded, [.upload, .execute, .settleAndProbe, .execute]) ∧
    [Ev.upload, .execute, .settleAndProbe, .execute].count .upload = 1 := by
  constructor <;> decide

/-- C2 (amended): the setup payload is transferred exactly once per
`run_remote_deployment` call, as the first side effect; a disconnect
with attempts remaining whose re-probe succeeds loops back to a new
execution directly — `Disconnected` returns to `Executing`, not
`Uploading`. -/
theorem c2_disconnect_reexecutes_without_reupload :
    (∀ (uploadOk : Bool) (out : Nat → AttemptOutcome)
        (probeOk : Nat → Bool) (m : Nat),
      ((run_remote_deployment uploadOk out probeOk m).2.count Ev.upload = 1) ∧
      (run_remote_deployment uploadOk out probeOk m).2.head? =
        some .upload) ∧
    (∀ (out : Nat → AttemptOutcome) (probeOk : Nat → Bool) (r attempt : Nat),
      classify (out attempt) = .disconnected → probeOk attempt = true →
      (deployFrom out probeOk (r + 1) attempt).2 =
        .execute :: .settleAndProbe ::
          (deployFrom out probeOk r (attempt + 1)).2) := by
  constructor
  · intro uploadOk out probeOk m
    cases uploadOk with
    | false => simp [run_remote_deployment, List.count_cons]
    | true =>
      simp [run_remote_deployment, List.count_cons,
        deployFrom_count_upload out probeOk m 0]
  · intro out probeOk r attempt h hp
    simp [deployFrom, h, hp]

/-- C2 witness: the amended theorem applied to the concrete
disconnect-then-succeed scenario. -/
theorem c2_disconnect_reexecutes_without_reupload_witness :
    (classify (discThenSucc 0) = .disconnected ∧ (fun _ : Nat => true) 0 = true) ∧
    (deployFrom discThenSucc (fun _ => true) 1 0).2 =
      .execute :: .settleAndProbe ::
        (deployFrom discThenSucc (fun _ => true) 0 1).2 :=
  ⟨⟨by decide, rfl⟩,
    c2_disconnect_reexecutes_without_reupload.2 discThenSucc
      (fun _ => true) 0 0 (by decide) rfl⟩

/-- C3: the executor issues at most `max_retries + 1` executions (at
most `max_retries` re-attempts after disconnects); once some attempt
classifies as a script failure no execution beyond it happens; a
failed upload ends the run with no execution at all; and with
`max_retries = 0` a first-attempt disconnect terminates as
retries-exhausted with no settle-and-re-probe event. -/
theorem c3_retry_budget :
    (∀ (uploadOk : Bool) (out : Nat → AttemptOutcome)
        (probeOk : Nat → Bool) (m : Nat),
      (run_remote_deployment uploadOk out probeOk m).2.count Ev.execute ≤
        m + 1) ∧
    (∀ (out : Nat → AttemptOutcome) (probeOk : Nat → Bool) (m j : Nat),
      classify (out j) = .scriptFailed →
      (run_remote_deployment true out probeOk m).2.count Ev.execute ≤
        j + 1) ∧
    (∀ (out : Nat → AttemptOutcome) (probeOk : Nat → Bool) (m : Nat),
      run_remote_deployment false out probeOk m = (.uploadFailed, [.upload])) ∧
    run_remote_deployment true (fun _ => discOutcome) (fun _ => true) 0 =
      (.retriesExhausted, [.upload, .execute]) := by
  refine ⟨?_, ?_, ?_, by decide⟩
  · intro uploadOk out probeOk m
    cases uploadOk with
    | false => simp [run_remote_deployment, List.count_cons]
    | true =>
      have := deployFrom_count_execute_le out probeOk m 0
      simp [run_remote_deployment, List.count_cons]
      omega
  · intro out probeOk m j hj
    have := deployFrom_scriptFailed_le out probeOk j hj m 0 (Nat.zero_le j)
    simp [run_remote_deployment, List.count_cons]
    omega
  · intro out probeOk m
    simp [run_remote_deployment]

/-- C3 witness: the script-failure bound applied to a run whose first
attempt fails with exit code 7. -/
theorem c3_retry_budget_witness :
    classify (failOutcome) = .scriptFailed ∧
    (run_remote_deployment true (fun _ => failOutcome)
        (fun _ => true) 5).2.count Ev.execute ≤ 0 + 1 :=
  ⟨by decide,
    c3_retry_budget.2.1 (fun _ => failOutcome) (fun _ => true) 5 0 (by decide)⟩

/-- C8: the probe backoff delay is `5 * n` seconds for attempts
`1 ≤ n ≤ 4`, exactly 20 seconds from attempt 5 on, monotonically
non-decreasing, and capped at 20 seconds. -/
theorem c8_backoff_schedule :
    (∀ n, 1 ≤ n → n ≤ 4 → wait_time n = 5 * n) ∧
    (∀ n, 5 ≤ n → wait_time n = 20) ∧
    (∀ n, wait_time n ≤ wait_time (n + 1)) ∧
    (∀ n, wait_time n ≤ 20) := by
  refine ⟨?_, ?_, ?_, ?_⟩ <;> intro n
  · intro h1 h4
    rw [wait_time, if_pos h4]
    omega
  · intro h5
    rw [wait_time, if_neg (by omega)]
    omega
  · rw [wait_time, wait_time]
    split_ifs <;> omega
  · rw [wait_time]
    split_ifs <;> omega

/-- C8 witness: the theorem applied at attempts 3 and 7. -/
theorem c8_backoff_schedule_witness :
    (1 ≤ 3 ∧ 3 ≤ 4 ∧ wait_time 3 = 5 * 3) ∧ (5 ≤ 7 ∧ wait_time 7 = 20) :=
  ⟨⟨by decide, by decide, c8_backoff_schedule.1 3 (by decide) (by decide)⟩,
    ⟨by decide, c8_backoff_schedule.2.1 7 (by decide)⟩⟩

/-- C9: with a 60-second deadline and every handshake failing, the
probe issues attempts at elapsed times 0, 5, 15, 30 and 50 seconds
only (no attempt at the 70-second mark) and returns false; a
successful handshake returns true immediately with no further
attempts; and all-failing handshakes always yield false. -/
theorem c9_probe_deadline :
    wait_for_ssh_available (fun _ => false) 60 20 =
      (false, [0, 5, 15, 30, 50]) ∧
    (∀ (succeeds : Nat → Bool) (timeout fuel t attempt : Nat),
      t < timeout → succeeds (attempt + 1) = true →
      probeRunFrom succeeds timeout (fuel + 1) t attempt = (true, [t])) ∧
    (∀ timeout fuel t attempt,
      (probeRunFrom (fun _ => false) timeout fuel t attempt).1 = false) := by
  refine ⟨by decide, ?_, fun timeout fuel t attempt =>
    probeRunFrom_allFail timeout fuel t attempt⟩
  intro succeeds timeout fuel t attempt ht hs
  simp [probeRunFrom, ht, hs]

/-- C9 witness: an immediately-successful probe under a 60-second
deadline. -/
theorem c9_probe_deadline_witness :
    ((0 : Nat) < 60 ∧ (fun _ : Nat => true) (0 + 1) = true) ∧
    probeRunFrom (fun _ => true) 60 1 0 0 = (true, [0]) :=
  ⟨⟨by decide, rfl⟩,
    c9_probe_deadline.2.1 (fun _ => true) 60 0 0 0 (by decide) rfl⟩

/-- C6 counterexample: a redirect-class response (HTTP 301) is not
2xx, yet with no embedded error fields the check at line 348 treats it
as success and the instance id is extracted — contradicting "every
non-2xx response is classified as a fatal rejection". -/
theorem c6_counterexample :
    handle_create_response ⟨301, some ⟨none, some "inst-1"⟩, none⟩ =
      .accepted (some "inst-1") := by
  decide

/-- C6 (amended): for creation responses carrying a `data` object, an
HTTP status of 400 or above, or an embedded error field (top-level or
inside `data`), is classified as a fatal rejection: no instance
identifier is returned; and a deploy invocation issues at most one
creation request, so a rejection is never retried at this layer.
(Statuses 300-399 without error fields are treated as success, and a
response without a `data` object raises an unhandled exception.) -/
theorem c6_rejection_classification :
    (∀ (r : CreateResponse) (d : CreateData), r.dataField = some d →
      (400 ≤ r.status_code ∨ d.errorField.isSome = true ∨
        r.errField.isSome = true) →
      handle_create_response r = .rejected) ∧
    (∀ (locFound : Bool) (r : CreateResponse) (waitOk runScript : Bool),
      (deploy_with_raw_api locFound r waitOk runScript).count
        DeployEv.postCreate ≤ 1) := by
  constructor
  · intro r d hd h
    rw [handle_create_response, hd]
    rcases h with h | h | h <;> simp [h]
  · intro locFound r waitOk runScript
    cases locFound with
    | false => simp [deploy_with_raw_api]
    | true =>
      cases h : handle_create_response r with
      | crash => simp [deploy_with_raw_api, h, List.count_cons]
      | rejected => simp [deploy_with_raw_api, h, List.count_cons]
      | accepted i =>
        cases waitOk <;> cases runScript <;>
          simp [deploy_with_raw_api, h, List.count_cons]

/-- C6 witness: the amended theorem applied to a concrete HTTP 400
response. -/
theorem c6_rejection_classification_witness :
    ((⟨400, some ⟨none, none⟩, none⟩ : CreateResponse).dataField =
        some ⟨none, none⟩ ∧ 400 ≤ 400) ∧
    handle_create_response ⟨400, some ⟨none, none⟩, none⟩ = .rejected :=
  ⟨⟨rfl, by decide⟩,
    c6_rejection_classification.1 ⟨400, some ⟨none, none⟩, none⟩
      ⟨none, none⟩ rfl (Or.inl (by decide))⟩

/-- C7 counterexample: in a deploy whose creation succeeds but whose
readiness poll fails (`waitOk = false`), `server_info.json` is still
written, and it is written before `wait_for_instance` runs — the
snapshot is persisted immediately after creation, not after the
instance reaches a connectable state. -/
theorem c7_counterexample :
    deploy_with_raw_api true okCreateResp false false =
      [.getLocations, .saveScript, .postCreate, .saveSnapshot,
        .waitForInstance] ∧
    (deploy_with_raw_api true okCreateResp false false).count
      DeployEv.saveSnapshot = 1 := by
  constructor <;> decide

/-- C7 (amended): the snapshot is written at most once per deploy; on
an accepted creation response it is written exactly once, immediately
after the creation request and before readiness polling begins; it is
not written when the creation response is rejected or crashes the
handler. -/
theorem c7_snapshot_write_order :
    ∀ (locFound : Bool) (r : CreateResponse) (waitOk runScript : Bool),
      ((deploy_with_raw_api locFound r waitOk runScript).count
        DeployEv.saveSnapshot ≤ 1) ∧
      (∀ i, handle_create_response r = .accepted i →
        ∃ tail, deploy_with_raw_api true r waitOk runScript =
          [.getLocations, .saveScript, .postCreate, .saveSnapshot,
            .waitForInstance] ++ tail) ∧
      (handle_create_response r = .rejected →
        (deploy_with_raw_api true r waitOk runScript).count
          DeployEv.saveSnapshot = 0) := by
  intro locFound r waitOk runScript
  refine ⟨?_, ?_, ?_⟩
  · cases locFound with
    | false => simp [deploy_with_raw_api]
    | true =>
      cases h : handle_create_response r with
      | crash => simp [deploy_with_raw_api, h, List.count_cons]
      | rejected => simp [deploy_with_raw_api, h, List.count_cons]
      | accepted i =>
        cases waitOk <;> cases runScript <;>
          simp [deploy_with_raw_api, h, List.count_cons]
  · intro i h
    exact ⟨(if waitOk then (if runScript then [.runRemoteDeployment] else [])
      else []), by simp [deploy_with_raw_api, h]⟩
  · intro h
    simp [deploy_with_raw_api, h, List.count_cons]

/-- C7 witness: the amended theorem applied to the accepted creation
response with a failing readiness poll. -/
theorem c7_snapshot_write_order_witness :
    handle_create_response okCreateResp = .accepted (some "inst-1") ∧
    ∃ tail, deploy_with_raw_api true okCreateResp false false =
      [.getLocations, .saveScript, .postCreate, .saveSnapshot,
        .waitForInstance] ++ tail :=
  ⟨by decide,
    (c7_snapshot_write_order true okCreateResp false false).2.1
      (some "inst-1") (by decide)⟩

/-- C10: the SSH-port display of the listing indexes the first
port-forward entry unguarded — an absent `portForwards` field raises
`TypeError` and an empty list raises `IndexError`, so the display is
total only when at least one mapping exists — and the port shown is
the external port of the first mapping, not that of the mapping whose
internal port is 22 (on a list whose first mapping is 8188→30188 and
whose port-22 mapping is 22→22022, it shows 30188). -/
theorem c10_listing_display_first_mapping :
    display_ssh_port none =
      .error "TypeError: NoneType is not subscriptable" ∧
    display_ssh_port (some []) =
      .error "IndexError: list index out of range" ∧
    (∀ (pf : PortForward) (rest : List PortForward),
      display_ssh_port (some (pf :: rest)) = .ok pf.external_port) ∧
    (display_ssh_port
        (some [⟨some 8188, some 30188⟩, ⟨some 22, some 22022⟩]) =
      .ok (some 30188) ∧
     findSshPort [⟨some 8188, some 30188⟩, ⟨some 22, some 22022⟩] =
      some 22022) :=
  ⟨rfl, rfl, fun _ _ => rfl, rfl, by decide⟩

end TD
